import Mathlib

/-!
Verification of the Go binding of the go-rust-ffi pub/sub demo
(`src/go/pubsub/pubsub.go`, package `pubsub`) against its specification.

The Go binding is embedded faithfully from the source: the C-heap
allocations made by `C.CString`, the `defer C.free` calls, the
`callbackRegistry` map keyed by subscriber id, and the `callbackGateway`
that resolves the user-data pointer back to a subscriber id.

The Rust core (`src/rust`, functions `subscribe`, `unsubscribe`,
`publish`, `get_next_message`, `has_messages`) is not part of the
sources available here; it is modelled from the spec where a definition
says so.
-/

namespace PubSub

/-- A pointer into the modelled C heap (an allocation identifier). -/
abbrev Ptr := Nat

/-- Model of the C heap used by `C.CString` / `C.free`.
`alive` lists the allocations not yet freed; `contents` remembers the
bytes of every allocation ever made (freeing does not erase them, which
lets us model reads through dangling pointers while still tracking
validity via `alive`). -/
structure CHeap where
  next : Nat
  alive : List Nat
  contents : List (Nat × String)
  deriving Repr, DecidableEq

def CHeap.alloc (h : CHeap) (s : String) : Ptr × CHeap :=
  (h.next,
   { next := h.next + 1,
     alive := h.next :: h.alive,
     contents := (h.next, s) :: h.contents })

def CHeap.free (h : CHeap) (p : Ptr) : CHeap :=
  { h with alive := h.alive.filter (fun q => q ≠ p) }

/-- Reading the string stored at an allocation (`C.GoString`).  Freed
memory still holds its old bytes in this model; `alive` is what decides
whether the read is valid. -/
def CHeap.read (h : CHeap) (p : Ptr) : Option String :=
  (h.contents.find? (fun e => e.1 = p)).map (fun e => e.2)

def emptyHeap : CHeap := ⟨0, [], []⟩

/-- The callback handle stored by the engine: the C function pointer is
always `callbackGateway` when present, so only the opaque user-data
pointer matters. -/
structure CallbackHandle where
  userData : Ptr
  deriving Repr, DecidableEq

/-- Modelled from the spec: the state of the Rust pub/sub core
(`SubscriptionRegistry` + `MessageQueue`), whose source is not in the
repository snapshot.  `subs` holds at most one entry per
(subscriberId, topic) pair; `queues` maps (subscriberId, topic) to the
FIFO list of undelivered (topic, content) messages. -/
structure EngineState where
  subs : List (String × String × Option CallbackHandle)
  queues : List ((String × String) × List (String × String))
  deriving Repr, DecidableEq

def emptyEngine : EngineState := ⟨[], []⟩

/-- Modelled from the spec: `subscribe` in the Rust core.  Fails only on
invalid arguments (empty subscriberId); otherwise registers or replaces
the subscription for the pair, and in pull mode creates an empty queue
for the pair if absent.  On failure the state is unchanged. -/
def engineSubscribe (st : EngineState) (sid topic : String)
    (cb : Option CallbackHandle) : Bool × EngineState :=
  if sid = "" then (false, st)
  else
    let subs' := (sid, topic, cb) ::
      st.subs.filter (fun e => ¬(e.1 = sid ∧ e.2.1 = topic))
    let queues' :=
      match cb with
      | some _ => st.queues
      | none =>
        if st.queues.any (fun q => q.1 = (sid, topic)) then st.queues
        else st.queues ++ [((sid, topic), [])]
    (true, ⟨subs', queues'⟩)

/-- Modelled from the spec: `unsubscribe` in the Rust core.  A null
topic (passed as `none`) is the wildcard: it removes every subscription
and queue of the subscriber; a specific topic removes only the matching
pair and its queue.  Unsubscribing an absent subscription succeeds as a
no-op, so the operation never fails. -/
def engineUnsubscribe (st : EngineState) (sid : String)
    (tfilter : Option String) : Bool × EngineState :=
  match tfilter with
  | none =>
      (true, ⟨st.subs.filter (fun e => e.1 ≠ sid),
              st.queues.filter (fun q => q.1.1 ≠ sid)⟩)
  | some t =>
      (true, ⟨st.subs.filter (fun e => ¬(e.1 = sid ∧ e.2.1 = t)),
              st.queues.filter (fun q => q.1 ≠ (sid, t))⟩)

/-- Append a message to the queue for `key`, creating the queue if it
does not exist yet. -/
def enqueue (qs : List ((String × String) × List (String × String)))
    (key : String × String) (msg : String × String) :
    List ((String × String) × List (String × String)) :=
  if qs.any (fun q => q.1 = key) then
    qs.map (fun q => if q.1 = key then (q.1, q.2 ++ [msg]) else q)
  else
    qs ++ [(key, [msg])]

/-- Modelled from the spec: `publish` in the Rust core.  Takes a
snapshot of the subscribers of the topic, then for each one either
records a callback invocation (handle, topic, content) or appends the
message to the subscriber's queue.  Returns the invocations so the
binding layer can model the gateway calls.  Publish itself always
succeeds (zero subscribers is a trivial success). -/
def enginePublish (st : EngineState) (topic content : String) :
    Bool × EngineState × List (CallbackHandle × String × String) :=
  let snapshot := st.subs.filter (fun e => e.2.1 = topic)
  let step := fun (acc : List ((String × String) × List (String × String)) ×
                     List (CallbackHandle × String × String))
                  (e : String × String × Option CallbackHandle) =>
    match e.2.2 with
    | some h => (acc.1, acc.2 ++ [(h, topic, content)])
    | none => (enqueue acc.1 (e.1, topic) (topic, content), acc.2)
  let r := snapshot.foldl step (st.queues, [])
  (true, ⟨st.subs, r.1⟩, r.2)

/-- The queue entry for exactly the key `key`. -/
def queueKey (key : String × String)
    (q : (String × String) × List (String × String)) : Bool :=
  q.1 == key

/-- A nonempty queue belonging to subscriber `sid` (any topic). -/
def queueReady (sid : String)
    (q : (String × String) × List (String × String)) : Bool :=
  q.1.1 == sid && !q.2.isEmpty

/-- A nonempty queue for exactly the key `key`. -/
def queueKeyReady (key : String × String)
    (q : (String × String) × List (String × String)) : Bool :=
  q.1 == key && !q.2.isEmpty

/-- Pop the oldest message of the queue for `key`. -/
def popQueue (qs : List ((String × String) × List (String × String)))
    (key : String × String) :
    Option (String × String) × List ((String × String) × List (String × String)) :=
  match qs.find? (queueKey key) with
  | some (_, m :: _) =>
      (some m, qs.map (fun q => if q.1 = key then (q.1, q.2.tail) else q))
  | _ => (none, qs)

/-- Modelled from the spec: the dequeue step of `get_next_message`.
With a specific topic it pops that pair's queue; with the wildcard it
pops the first nonempty queue of the subscriber in queue-creation
order (a stable, deterministic choice). -/
def engineGetNext (st : EngineState) (sid : String)
    (tfilter : Option String) : Option (String × String) × EngineState :=
  match tfilter with
  | some t =>
      let r := popQueue st.queues (sid, t)
      (r.1, ⟨st.subs, r.2⟩)
  | none =>
      match st.queues.find? (queueReady sid) with
      | some (k, m :: _) =>
          (some m, ⟨st.subs,
            st.queues.map (fun q => if q.1 = k then (q.1, q.2.tail) else q)⟩)
      | _ => (none, st)

/-- Modelled from the spec: the `BoundaryMarshaller` fixed-capacity
buffer contract.  Given a source string and a buffer capacity, returns
the string actually written to the buffer (excluding the terminator)
and whether truncation occurred: if the encoded length meets or exceeds
the capacity, the output is cut to `cap - 1` characters so it still
fits with its terminator. -/
def marshalToBuffer (s : String) (cap : Nat) : String × Bool :=
  if cap ≤ s.toList.length then (String.mk (s.toList.take (cap - 1)), true)
  else (s, false)

/-- Modelled from the spec: `has_messages` in the Rust core.  Null
topic is the wildcard: any nonempty queue of the subscriber counts. -/
def engineHasMessages (st : EngineState) (sid : String)
    (tfilter : Option String) : Bool :=
  match tfilter with
  | some t => st.queues.any (queueKeyReady (sid, t))
  | none => st.queues.any (queueReady sid)

/-- Maximum buffer sizes from the Go binding (`MaxTopicSize`,
`MaxMessageSize`). -/
def MaxTopicSize : Nat := 256

def MaxMessageSize : Nat := 4096

/-- Modelled from the spec: the full `get_next_message` boundary
function — dequeue, then marshal topic and message into the
caller-supplied buffers under the fixed-capacity contract. -/
def get_next_message (st : EngineState) (sid : String)
    (tfilter : Option String) (outTopicSize outMessageSize : Nat) :
    Bool × EngineState × String × String :=
  match engineGetNext st sid tfilter with
  | (none, st') => (false, st', "", "")
  | (some (t, c), st') =>
      (true, st', (marshalToBuffer t outTopicSize).1,
       (marshalToBuffer c outMessageSize).1)

/-- Go callbacks (`MessageCallback`) are identified by an opaque id. -/
abbrev CallbackId := Nat

/-- The whole observable state of the binding: the Go
`callbackRegistry` (subscriber id → callback), the engine state, and
the modelled C heap. -/
structure GoState where
  registry : List (String × CallbackId)
  engine : EngineState
  heap : CHeap
  deriving Repr, DecidableEq

def initialGoState : GoState := ⟨[], emptyEngine, emptyHeap⟩

def lookupReg (reg : List (String × CallbackId)) (sid : String) :
    Option CallbackId :=
  (reg.find? (fun e => e.1 = sid)).map (fun e => e.2)

/-- `callbackRegistry.callbacks[subscriberID] = callback` on a Go map:
replace any existing entry for the key. -/
def insertReg (reg : List (String × CallbackId)) (sid : String)
    (cb : CallbackId) : List (String × CallbackId) :=
  (sid, cb) :: reg.filter (fun e => e.1 ≠ sid)

/-- `Subscribe` from the Go binding: allocate the C strings, register
the callback in the registry (before the FFI call, as the source does),
pass `callbackGateway` with the C subscriber-id string as user data,
call the engine, then run the deferred frees — including the free of
the very string passed as user data. -/
def Subscribe (st : GoState) (subscriberID topic : String)
    (callback : Option CallbackId) : Except String Unit × GoState :=
  let a1 := st.heap.alloc subscriberID
  let a2 := a1.2.alloc topic
  let registry' :=
    match callback with
    | some cb => insertReg st.registry subscriberID cb
    | none => st.registry
  let cCallback : Option CallbackHandle :=
    match callback with
    | some _ => some ⟨a1.1⟩
    | none => none
  let r := engineSubscribe st.engine subscriberID topic cCallback
  let heap' := (a2.2.free a2.1).free a1.1
  if r.1 then (Except.ok (), ⟨registry', r.2, heap'⟩)
  else (Except.error "failed to subscribe", ⟨registry', r.2, heap'⟩)

/-- `Unsubscribe` from the Go binding: an empty topic is passed to the
engine as a null pointer (wildcard), and only in that case is the
callback removed from the registry after the engine call succeeds. -/
def Unsubscribe (st : GoState) (subscriberID topic : String) :
    Except String Unit × GoState :=
  let a1 := st.heap.alloc subscriberID
  let a2 := if topic = "" then (none, a1.2)
            else (let a := a1.2.alloc topic; (some a.1, a.2))
  let tfilter : Option String := if topic = "" then none else some topic
  let r := engineUnsubscribe st.engine subscriberID tfilter
  let heap' :=
    match a2.1 with
    | some p => (a2.2.free p).free a1.1
    | none => a2.2.free a1.1
  if r.1 then
    let registry' :=
      if topic = "" then st.registry.filter (fun e => e.1 ≠ subscriberID)
      else st.registry
    (Except.ok (), ⟨registry', r.2, heap'⟩)
  else (Except.error "failed to unsubscribe", ⟨st.registry, r.2, heap'⟩)

/-- `callbackGateway` from the Go binding, applied to one invocation
recorded by the engine: read the subscriber id back from the user-data
pointer, look the callback up in the registry, and fire it if present. -/
def gatewayFire (reg : List (String × CallbackId)) (heap : CHeap)
    (inv : CallbackHandle × String × String) :
    Option (CallbackId × String × String) :=
  match heap.read inv.1.userData with
  | some sid =>
      match lookupReg reg sid with
      | some cb => some (cb, inv.2.1, inv.2.2)
      | none => none
  | none => none

/-- `Publish` from the Go binding.  Besides the result and the new
state it returns the list of Go callback invocations
(callback id, topic, message) fired through `callbackGateway` during
the engine's synchronous fan-out. -/
def Publish (st : GoState) (topic message : String) :
    (Except String Unit × GoState) × List (CallbackId × String × String) :=
  let a1 := st.heap.alloc topic
  let a2 := a1.2.alloc message
  let r := enginePublish st.engine topic message
  let fired := r.2.2.filterMap (gatewayFire st.registry a2.2)
  let heap' := (a2.2.free a2.1).free a1.1
  if r.1 then ((Except.ok (), ⟨st.registry, r.2.1, heap'⟩), fired)
  else ((Except.error "failed to publish", ⟨st.registry, r.2.1, heap'⟩), fired)

/-- `GetMessage` from the Go binding: empty topic means wildcard
(null topic pointer); allocates the two output buffers with capacities
`MaxTopicSize` and `MaxMessageSize`; any engine failure becomes the
single error value "no messages available". -/
def GetMessage (st : GoState) (subscriberID topic : String) :
    Except String (String × String) × GoState :=
  let a1 := st.heap.alloc subscriberID
  let a2 := if topic = "" then (none, a1.2)
            else (let a := a1.2.alloc topic; (some a.1, a.2))
  let tfilter : Option String := if topic = "" then none else some topic
  let r := get_next_message st.engine subscriberID tfilter
             MaxTopicSize MaxMessageSize
  let heap' :=
    match a2.1 with
    | some p => (a2.2.free p).free a1.1
    | none => a2.2.free a1.1
  if r.1 then (Except.ok (r.2.2.1, r.2.2.2), ⟨st.registry, r.2.1, heap'⟩)
  else (Except.error "no messages available", ⟨st.registry, r.2.1, heap'⟩)

/-- `HasMessages` from the Go binding: empty topic means wildcard. -/
def HasMessages (st : GoState) (subscriberID topic : String) : Bool :=
  let tfilter : Option String := if topic = "" then none else some topic
  engineHasMessages st.engine subscriberID tfilter

/-- The subscription the engine currently stores for a pair. -/
def lookupSub (st : EngineState) (sid topic : String) :
    Option (Option CallbackHandle) :=
  (st.subs.find? (fun e => e.1 = sid ∧ e.2.1 = topic)).map (fun e => e.2.2)

end PubSub

namespace PubSub

/-! ## Shared helper lemmas -/

/-- Looking a key up after filtering that key out of the registry finds
nothing. -/
theorem lookupReg_filter_self (reg : List (String × CallbackId)) (sid : String) :
    lookupReg (reg.filter (fun e => e.1 ≠ sid)) sid = none := by
  induction reg with
  | nil => rfl
  | cons a l ih =>
    by_cases h : a.1 = sid
    · simpa [lookupReg, List.filter, h] using ih
    · simpa [lookupReg, List.filter, h] using ih

/-- If the engine reports no messages for a filter, the boundary
`get_next_message` returns failure. -/
theorem get_next_none_of_no_messages (st : EngineState) (sid : String)
    (tf : Option String) (a b : Nat)
    (h : engineHasMessages st sid tf = false) :
    (get_next_message st sid tf a b).1 = false := by
  cases tf with
  | none =>
    unfold get_next_message engineGetNext
    rcases hfind : st.queues.find? (queueReady sid) with _ | ⟨k, l⟩
    · simp [hfind]
    · exfalso
      have hmem := List.mem_of_find?_eq_some hfind
      have hp := List.find?_some hfind
      have hany := List.any_eq_true.mpr ⟨(k, l), hmem, hp⟩
      rw [engineHasMessages] at h
      simp_all
  | some t =>
    unfold get_next_message engineGetNext popQueue
    rcases hfind : st.queues.find? (queueKey (sid, t)) with _ | ⟨k, l⟩
    · simp [hfind]
    · have hp := List.find?_some hfind
      have hmem := List.mem_of_find?_eq_some hfind
      cases l with
      | nil => simp [hfind]
      | cons m rest =>
        exfalso
        have hany : st.queues.any (queueKeyReady (sid, t)) = true := by
          refine List.any_eq_true.mpr ⟨(k, m :: rest), hmem, ?_⟩
          simp [queueKey] at hp
          simp [queueKeyReady, hp]
        rw [engineHasMessages] at h
        simp_all

/-- If some queue of the subscriber is nonempty, the wildcard
`get_next_message` succeeds. -/
theorem get_next_some_of_messages (st : EngineState) (sid : String) (a b : Nat)
    (h : st.queues.any (queueReady sid) = true) :
    (get_next_message st sid none a b).1 = true := by
  unfold get_next_message engineGetNext
  rcases hfind : st.queues.find? (queueReady sid) with _ | ⟨k, l⟩
  · exfalso
    rw [List.find?_eq_none] at hfind
    rcases List.any_eq_true.mp h with ⟨q, hq, hpq⟩
    exact absurd hpq (by simpa using hfind q hq)
  · have hp := List.find?_some hfind
    cases l with
    | nil => simp [queueReady] at hp
    | cons m rest => simp [hfind]

/-! ## Claim theorems -/

/-- C1: the claim says the user-data payload handed to the engine stays
valid until unsubscribe completes, so no callback ever receives a
dangling handle.  The Go source violates this: `Subscribe` passes the
`C.CString(subscriberID)` allocation as user data while also scheduling
`defer C.free` on it, so the moment `Subscribe` returns successfully
the engine's stored handle points at freed memory.  This theorem
evaluates the code at the failing input: the subscription is stored
with user-data pointer 0, yet pointer 0 is no longer alive. -/
theorem C1_userdata_dangling_after_subscribe :
    (Subscribe initialGoState "sub1" "news" (some 1)).1 = Except.ok () ∧
    lookupSub (Subscribe initialGoState "sub1" "news" (some 1)).2.engine "sub1" "news"
      = some (some ⟨0⟩) ∧
    (0 : Nat) ∉ (Subscribe initialGoState "sub1" "news" (some 1)).2.heap.alive :=
  ⟨rfl, rfl, by decide⟩

/-- C2 counterexample: a failed `Subscribe` (empty subscriber id is
rejected by the engine) leaves the binding's callback registry mutated:
the callback registered before the FFI call is never rolled back, so
the observable state after the failed call differs from the state
before it, contrary to the claim. -/
theorem C2_counterexample_failed_subscribe_mutates_registry :
    (Subscribe initialGoState "" "news" (some 7)).1
      = Except.error "failed to subscribe" ∧
    (Subscribe initialGoState "" "news" (some 7)).2.registry = [("", 7)] ∧
    (Subscribe initialGoState "" "news" (some 7)).2.registry
      ≠ initialGoState.registry :=
  ⟨rfl, rfl, by decide⟩

/-- C2 (amended): every invocation of Subscribe, Unsubscribe, or
Publish that returns failure leaves the engine state exactly as it was
before the call; only the binding's callback registry may retain the
callback registered by a failed `Subscribe`. -/
theorem C2_failed_ops_leave_engine_unchanged (st : GoState)
    (S T topic message : String) (cb : Option CallbackId) :
    (∀ e, (Subscribe st S T cb).1 = Except.error e →
      (Subscribe st S T cb).2.engine = st.engine) ∧
    (∀ e, (Unsubscribe st S T).1 = Except.error e →
      (Unsubscribe st S T).2.engine = st.engine ∧
      (Unsubscribe st S T).2.registry = st.registry) ∧
    (∀ e, ((Publish st topic message).1).1 = Except.error e →
      ((Publish st topic message).1).2.engine = st.engine ∧
      ((Publish st topic message).1).2.registry = st.registry) := by
  refine ⟨?_, ?_, ?_⟩
  · intro e h
    by_cases hS : S = ""
    · cases cb <;> simp [Subscribe, engineSubscribe, hS]
    · cases cb <;> simp [Subscribe, engineSubscribe, hS] at h
  · intro e h
    by_cases hT : T = "" <;> simp [Unsubscribe, engineUnsubscribe, hT] at h
  · intro e h
    simp [Publish, enginePublish] at h

/-- Witness for C2: the amended theorem applied at the concrete failing
input of the counterexample. -/
theorem C2_failed_ops_leave_engine_unchanged_witness :
    (Subscribe initialGoState "" "news" (some 7)).1
      = Except.error "failed to subscribe" ∧
    (Subscribe initialGoState "" "news" (some 7)).2.engine
      = initialGoState.engine :=
  ⟨rfl, (C2_failed_ops_leave_engine_unchanged initialGoState "" "news" "t" "m"
      (some 7)).1 "failed to subscribe" rfl⟩

/-- C3: after `subscribe(S, T, oldCb)` followed by
`subscribe(S, T, newCb)`, the next publish to T fires exactly `newCb`
once with the published message, and never `oldCb`. -/
theorem C3_resubscribe_last_callback_wins (S T m : String)
    (oldCb newCb : CallbackId) (hS : S ≠ "") :
    (Publish (Subscribe (Subscribe initialGoState S T (some oldCb)).2
        S T (some newCb)).2 T m).2 = [(newCb, T, m)] ∧
    (oldCb ≠ newCb →
      ∀ f ∈ (Publish (Subscribe (Subscribe initialGoState S T (some oldCb)).2
          S T (some newCb)).2 T m).2, f.1 ≠ oldCb) := by
  have h1 : (Publish (Subscribe (Subscribe initialGoState S T (some oldCb)).2
      S T (some newCb)).2 T m).2 = [(newCb, T, m)] := by
    simp [Publish, Subscribe, initialGoState, emptyEngine, emptyHeap,
          CHeap.alloc, CHeap.free, CHeap.read, insertReg, lookupReg,
          engineSubscribe, enginePublish, enqueue, gatewayFire, hS]
  refine ⟨h1, ?_⟩
  intro hne f hf
  rw [h1, List.mem_singleton] at hf
  subst hf
  exact Ne.symm hne

/-- Witness for C3 at concrete inputs. -/
theorem C3_resubscribe_last_callback_wins_witness :
    ("sub1" : String) ≠ "" ∧
    (Publish (Subscribe (Subscribe initialGoState "sub1" "news" (some 1)).2
        "sub1" "news" (some 2)).2 "news" "m1").2 = [(2, "news", "m1")] :=
  ⟨by decide,
   (C3_resubscribe_last_callback_wins "sub1" "news" "m1" 1 2 (by decide)).1⟩

end PubSub

namespace PubSub

/-- C4: for a subscriber registered in pull mode, after publishing "a"
then "b" to the topic, the first `GetMessage` returns content "a", the
second returns content "b", and `HasMessages` is false once both are
drained — per-subscriber per-topic FIFO order. -/
theorem C4_pull_mode_fifo_order (S T : String) (hS : S ≠ "") (hT : T ≠ "") :
    ((GetMessage ((Publish ((Publish (Subscribe initialGoState S T none).2
        T "a").1).2 T "b").1).2 S T).1).map (fun p => p.2) = Except.ok "a" ∧
    ((GetMessage (GetMessage ((Publish ((Publish (Subscribe initialGoState S T none).2
        T "a").1).2 T "b").1).2 S T).2 S T).1).map (fun p => p.2) = Except.ok "b" ∧
    HasMessages (GetMessage (GetMessage ((Publish ((Publish
        (Subscribe initialGoState S T none).2 T "a").1).2 T "b").1).2
        S T).2 S T).2 S T = false := by
  refine ⟨?_, ?_, ?_⟩ <;>
  simp [Publish, Subscribe, GetMessage, HasMessages, get_next_message, engineGetNext,
        engineHasMessages, popQueue, queueKey, queueReady, queueKeyReady,
        marshalToBuffer, MaxTopicSize, MaxMessageSize,
        initialGoState, emptyEngine, emptyHeap, CHeap.alloc, CHeap.free, Except.map,
        CHeap.read, insertReg, lookupReg, engineSubscribe, enginePublish, enqueue,
        gatewayFire, hS, hT]

/-- Witness for C4 at concrete inputs. -/
theorem C4_pull_mode_fifo_order_witness :
    ("sub2" : String) ≠ "" ∧ ("news" : String) ≠ "" ∧
    ((GetMessage ((Publish ((Publish (Subscribe initialGoState "sub2" "news" none).2
        "news" "a").1).2 "news" "b").1).2 "sub2" "news").1).map (fun p => p.2)
      = Except.ok "a" :=
  ⟨by decide, by decide,
   (C4_pull_mode_fifo_order "sub2" "news" (by decide) (by decide)).1⟩

/-- C5: an empty topic argument means wildcard in Unsubscribe,
GetMessage and HasMessages.  `Unsubscribe S ""` leaves no subscription
and no queue of S in the engine; `HasMessages S ""` checks across all
of S's queues; `GetMessage S ""` succeeds exactly when some queue of S
— on any topic — is nonempty.  In none of these is "" passed through
as a literal topic name. -/
theorem C5_empty_topic_is_wildcard (st : GoState) (S : String) :
    (∀ e ∈ (Unsubscribe st S "").2.engine.subs, e.1 ≠ S) ∧
    (∀ q ∈ (Unsubscribe st S "").2.engine.queues, q.1.1 ≠ S) ∧
    HasMessages st S "" = st.engine.queues.any (queueReady S) ∧
    ((∃ p, (GetMessage st S "").1 = Except.ok p) ↔
      st.engine.queues.any (queueReady S) = true) := by
  refine ⟨?_, ?_, rfl, ?_⟩
  · intro e he
    simp [Unsubscribe, engineUnsubscribe] at he
    exact he.2
  · intro q hq
    simp [Unsubscribe, engineUnsubscribe] at hq
    exact hq.2
  · constructor
    · intro ⟨p, hp⟩
      by_contra hany
      have h0 : engineHasMessages st.engine S none = false := by
        rw [engineHasMessages]
        simpa using hany
      have hfalse := get_next_none_of_no_messages st.engine S none
        MaxTopicSize MaxMessageSize h0
      simp [GetMessage, hfalse] at hp
    · intro hany
      have htrue := get_next_some_of_messages st.engine S
        MaxTopicSize MaxMessageSize hany
      simp [GetMessage, htrue]

/-- Witness for C5 at a concrete state with a queued message. -/
theorem C5_empty_topic_is_wildcard_witness :
    HasMessages ((Publish (Subscribe initialGoState "sub2" "news" none).2
        "news" "a").1).2 "sub2" "" =
      ((Publish (Subscribe initialGoState "sub2" "news" none).2
        "news" "a").1).2.engine.queues.any (queueReady "sub2") ∧
    ((∃ p, (GetMessage ((Publish (Subscribe initialGoState "sub2" "news" none).2
        "news" "a").1).2 "sub2" "").1 = Except.ok p) ↔
      ((Publish (Subscribe initialGoState "sub2" "news" none).2
        "news" "a").1).2.engine.queues.any (queueReady "sub2") = true) :=
  ⟨(C5_empty_topic_is_wildcard _ "sub2").2.2.1,
   (C5_empty_topic_is_wildcard _ "sub2").2.2.2⟩

/-- C6: when no message is queued for the filter, `GetMessage` returns
the single "no messages available" signal, and every failure of the
boundary call surfaces as that same value — no cause information ever
reaches the caller. -/
theorem C6_failures_collapse_to_no_message (st : GoState) (S T : String) :
    (∀ e, (GetMessage st S T).1 = Except.error e →
      e = "no messages available") ∧
    (HasMessages st S T = false →
      (GetMessage st S T).1 = Except.error "no messages available") := by
  constructor
  · intro e h
    rcases hb : (get_next_message st.engine S (if T = "" then none else some T)
        MaxTopicSize MaxMessageSize).1
    · simp [GetMessage, hb] at h
      exact h.symm
    · simp [GetMessage, hb] at h
  · intro hhm
    have hfalse : (get_next_message st.engine S (if T = "" then none else some T)
        MaxTopicSize MaxMessageSize).1 = false :=
      get_next_none_of_no_messages st.engine S _ _ _ hhm
    simp [GetMessage, hfalse]

/-- Witness for C6: on the initial state nothing is queued, and
`GetMessage` reports exactly the "no messages available" value. -/
theorem C6_failures_collapse_to_no_message_witness :
    HasMessages initialGoState "sub1" "news" = false ∧
    (GetMessage initialGoState "sub1" "news").1
      = Except.error "no messages available" :=
  ⟨rfl, (C6_failures_collapse_to_no_message initialGoState "sub1" "news").2 rfl⟩

/-- C7: the fixed-capacity marshalling contract.  For any positive
capacity the output always leaves room for the terminator (never
overruns the buffer); if the source length meets or exceeds the
capacity the output is the truncated prefix and truncation is
reported; below capacity the string passes through unchanged with no
truncation report.  The two capacities used at the boundary are
`MaxTopicSize = 256` and `MaxMessageSize = 4096`. -/
theorem C7_marshal_truncates_safely (s : String) (cap : Nat) (h : 0 < cap) :
    (marshalToBuffer s cap).1.length < cap ∧
    (cap ≤ s.length →
      (marshalToBuffer s cap).2 = true ∧
      (marshalToBuffer s cap).1.data = s.data.take (cap - 1)) ∧
    (s.length < cap →
      (marshalToBuffer s cap).1 = s ∧ (marshalToBuffer s cap).2 = false) ∧
    MaxTopicSize = 256 ∧ MaxMessageSize = 4096 := by
  have e : s.toList.length = s.length := rfl
  refine ⟨?_, ?_, ?_, rfl, rfl⟩
  · unfold marshalToBuffer
    split
    · next hle =>
      show (s.toList.take (cap - 1)).length < cap
      rw [List.length_take]
      omega
    · next hlt =>
      show s.length < cap
      omega
  · intro hc
    have hc' : cap ≤ s.toList.length := hc
    unfold marshalToBuffer
    rw [if_pos hc']
    exact ⟨rfl, rfl⟩
  · intro hc
    have hn : ¬ (cap ≤ s.toList.length) := by omega
    unfold marshalToBuffer
    rw [if_neg hn]
    exact ⟨rfl, rfl⟩

/-- Witness for C7: a string longer than the topic buffer is truncated
to fit and stays within capacity. -/
theorem C7_marshal_truncates_safely_witness :
    0 < MaxTopicSize ∧ (marshalToBuffer "hello" MaxTopicSize).1.length < MaxTopicSize :=
  ⟨by decide, (C7_marshal_truncates_safely "hello" MaxTopicSize (by decide)).1⟩

/-- C9: the Go binding's callback registry is keyed by subscriber id
alone.  Subscribing S to topic T1 with cb1 and then to a different
topic T2 with cb2 leaves cb2 as the only registry entry for S, and cb2
is what fires for a publish to either topic. -/
theorem C9_registry_single_callback_per_subscriber
    (S T1 T2 m1 m2 : String) (cb1 cb2 : CallbackId)
    (hS : S ≠ "") (hT : T1 ≠ T2) :
    (Subscribe (Subscribe initialGoState S T1 (some cb1)).2 S T2 (some cb2)).2.registry
      = [(S, cb2)] ∧
    (Publish (Subscribe (Subscribe initialGoState S T1 (some cb1)).2
        S T2 (some cb2)).2 T1 m1).2 = [(cb2, T1, m1)] ∧
    (Publish (Subscribe (Subscribe initialGoState S T1 (some cb1)).2
        S T2 (some cb2)).2 T2 m2).2 = [(cb2, T2, m2)] := by
  refine ⟨?_, ?_, ?_⟩ <;>
  simp [Publish, Subscribe, initialGoState, emptyEngine, emptyHeap,
        CHeap.alloc, CHeap.free, CHeap.read, insertReg, lookupReg,
        engineSubscribe, enginePublish, enqueue, gatewayFire, hS, hT, Ne.symm hT]

/-- Witness for C9 at concrete inputs. -/
theorem C9_registry_single_callback_per_subscriber_witness :
    (Subscribe (Subscribe initialGoState "sub1" "t1" (some 1)).2
        "sub1" "t2" (some 2)).2.registry = [("sub1", 2)] :=
  (C9_registry_single_callback_per_subscriber "sub1" "t1" "t2" "m1" "m2" 1 2
    (by decide) (by decide)).1

/-- C10: a topic-specific `Unsubscribe` succeeds and leaves the Go
callback registry untouched; only the wildcard `Unsubscribe S ""`
deletes S's registry entry. -/
theorem C10_topic_unsubscribe_keeps_registry_entry
    (st : GoState) (S T : String) (hT : T ≠ "") :
    (Unsubscribe st S T).1 = Except.ok () ∧
    (Unsubscribe st S T).2.registry = st.registry ∧
    lookupReg (Unsubscribe st S "").2.registry S = none := by
  refine ⟨?_, ?_, ?_⟩
  · simp [Unsubscribe, engineUnsubscribe, hT]
  · simp [Unsubscribe, engineUnsubscribe, hT]
  · have h := lookupReg_filter_self st.registry S
    simp only [ne_eq, decide_not] at h
    simpa [Unsubscribe, engineUnsubscribe] using h

/-- Witness for C10: after registering a callback for sub1, a
topic-specific unsubscribe keeps the registry entry. -/
theorem C10_topic_unsubscribe_keeps_registry_entry_witness :
    ("news" : String) ≠ "" ∧
    (Unsubscribe (Subscribe initialGoState "sub1" "news" (some 5)).2
        "sub1" "news").2.registry
      = (Subscribe initialGoState "sub1" "news" (some 5)).2.registry :=
  ⟨by decide,
   (C10_topic_unsubscribe_keeps_registry_entry
      (Subscribe initialGoState "sub1" "news" (some 5)).2 "sub1" "news"
      (by decide)).2.1⟩

end PubSub
